import Mathlib

/-!
Shallow embedding of the persistence and settings logic of the
YouTube live-stream control panel (source files app.py,
advanced_settings.py, livesesion.py).

JSON documents are modelled by the inductive `Json`; Python dicts are
modelled as association lists `List (String × _)` with insertion-order
preserving update, mirroring dict assignment semantics.  File-backed
state is modelled as `Option (Except ReadError _)`: `none` is a missing
file, `some (.error e)` a file whose read or parse raises, and
`some (.ok v)` a successfully parsed document; the json codec of the
standard library is treated as a faithful round trip.
-/

/-- Model of a JSON value (string keys only, as produced by json.dump). -/
inductive Json where
  | str : String → Json
  | int : Int → Json
  | bool : Bool → Json
  | null : Json
  | arr : List Json → Json
  | obj : List (String × Json) → Json

/-- Failure mode of reading a JSON file: the I/O or the parse raises. -/
inductive ReadError where
  | ioError : ReadError
  | parseError : ReadError
deriving DecidableEq, Repr

/-- Dict lookup `d.get(k)`: first binding of the key, if any. -/
def alistLookup {α : Type} (k : String) : List (String × α) → Option α
  | [] => none
  | kv :: rest => if kv.1 = k then some kv.2 else alistLookup k rest

/-- Dict assignment `d[k] = v`: replace the binding in place, or append. -/
def alistInsert {α : Type} (k : String) (v : α) : List (String × α) → List (String × α)
  | [] => [(k, v)]
  | kv :: rest => if kv.1 = k then (k, v) :: rest else kv :: alistInsert k v rest

/-! ## Thumbnail upload quota log (app.py)

The quota log file `thumbnail_uploads.json` holds two counters keyed by
date and hour strings: `{'daily': {...}, 'hourly': {...}}`. -/

/-- Parsed contents of thumbnail_uploads.json (app.py lines 131-135). -/
structure QuotaLog where
  daily : List (String × Int)
  hourly : List (String × Int)
deriving DecidableEq, Repr

/-- Today's recorded upload count: `upload_log['daily'].get(today, 0)`. -/
def dailyCount (log : QuotaLog) (today : String) : Int :=
  (alistLookup today log.daily).getD 0

/-- Current hour's recorded upload count: `upload_log['hourly'].get(current_hour, 0)`. -/
def hourlyCount (log : QuotaLog) (currentHour : String) : Int :=
  (alistLookup currentHour log.hourly).getD 0

/-- Embedding of can_upload_thumbnail (app.py lines 128-150).
The file state is read; a missing file acts as the empty log, a raised
exception is caught by the except-branch which returns `(True, 0, 0)`.
`today` and `currentHour` are the strftime images of the current
Jakarta time. -/
def canUploadThumbnail (file : Option (Except ReadError QuotaLog))
    (today currentHour : String) : Bool × Int × Int :=
  match file with
  | some (.error _) => (true, 0, 0)
  | some (.ok log) =>
    let d := dailyCount log today
    let h := hourlyCount log currentHour
    (decide (d < 50) && decide (h < 10), d, h)
  | none =>
    let log : QuotaLog := ⟨[], []⟩
    let d := dailyCount log today
    let h := hourlyCount log currentHour
    (decide (d < 50) && decide (h < 10), d, h)

/-- Lexicographic code-point comparison of character lists, the order
Python uses for its string comparison operators. -/
def charListLe : List Char → List Char → Bool
  | [], _ => true
  | _ :: _, [] => false
  | c1 :: t1, c2 :: t2 =>
    if c1.val < c2.val then true
    else if c2.val < c1.val then false
    else charListLe t1 t2

/-- Python's s less-or-equal t on strings: lexicographic by code
points. -/
def pyStrLe (s t : String) : Bool := charListLe s.data t.data

/-- Embedding of log_thumbnail_upload (app.py lines 152-180), returning
the new file state.  When the read raises, the handler reports the error
and nothing is written, so the file is unchanged.  Otherwise both
counters are incremented, entries below the 7-day / 24-hour cutoff
strings (strftime of now - 7 days resp. now - 24 hours) are pruned by
the string comparison `k >= cutoff`, and the result is written back. -/
def logThumbnailUpload (file : Option (Except ReadError QuotaLog))
    (today currentHour cutoffDate cutoffHour : String) :
    Option (Except ReadError QuotaLog) :=
  match file with
  | some (.error e) => some (.error e)
  | some (.ok log) =>
    let daily1 := alistInsert today ((alistLookup today log.daily).getD 0 + 1) log.daily
    let hourly1 := alistInsert currentHour ((alistLookup currentHour log.hourly).getD 0 + 1) log.hourly
    let daily2 := daily1.filter (fun kv => pyStrLe cutoffDate kv.1)
    let hourly2 := hourly1.filter (fun kv => pyStrLe cutoffHour kv.1)
    some (.ok ⟨daily2, hourly2⟩)
  | none =>
    let log : QuotaLog := ⟨[], []⟩
    let daily1 := alistInsert today ((alistLookup today log.daily).getD 0 + 1) log.daily
    let hourly1 := alistInsert currentHour ((alistLookup currentHour log.hourly).getD 0 + 1) log.hourly
    let daily2 := daily1.filter (fun kv => pyStrLe cutoffDate kv.1)
    let hourly2 := hourly1.filter (fun kv => pyStrLe cutoffHour kv.1)
    some (.ok ⟨daily2, hourly2⟩)

/-! ## Advanced settings (advanced_settings.py)

The settings document is the nested mapping produced by
get_default_settings; the stream and technical categories, whose fields
the claims exercise, are embedded as typed records mirroring the keys
the source accesses. -/

/-- The stream_settings category of the settings document. -/
structure StreamSettings where
  enable_dvr : Bool
  enable_content_encryption : Bool
  enable_embed : Bool
  enable_auto_start : Bool
  enable_auto_stop : Bool
  record_from_start : Bool
  monitor_stream : Bool
  broadcast_delay_ms : Int
  custom_rtmp_url : String
  stream_latency : String

/-- The technical_settings category of the settings document. -/
structure TechnicalSettings where
  video_codec : String
  audio_codec : String
  keyframe_interval : Int
  b_frames : Int
  audio_sample_rate : Int
  audio_channels : Int
  enable_hardware_encoding : Bool

/-- The latency literal chosen by advanced_settings.py lines 641-646:
the elif chain tests the low value, then the ultra_low value, and falls
through to normal. -/
def latencyLiteral (lat : String) : String :=
  if lat = "low" then "low"
  else if lat = "ultra_low" then "ultraLow"
  else "normal"

/-- The monitorStream sub-object built by advanced_settings.py lines
629-638. -/
def monitorStreamObj (ss : StreamSettings) : Json :=
  if ss.monitor_stream then
    Json.obj [("enableMonitorStream", Json.bool true),
              ("broadcastStreamDelayMs", Json.int ss.broadcast_delay_ms)]
  else
    Json.obj [("enableMonitorStream", Json.bool false),
              ("broadcastStreamDelayMs", Json.int 0)]

/-- The successive dict updates applied to the contentDetails dict by
advanced_settings.py lines 619-646: the six copied flags (in the order
of the update literal), the monitorStream sub-object, and the latency
literal. -/
def updateContentDetails (ss : StreamSettings) (cd : List (String × Json)) :
    List (String × Json) :=
  alistInsert "latencyPreference" (Json.str (latencyLiteral ss.stream_latency))
    (alistInsert "monitorStream" (monitorStreamObj ss)
      (alistInsert "enableEmbed" (Json.bool ss.enable_embed)
        (alistInsert "enableContentEncryption" (Json.bool ss.enable_content_encryption)
          (alistInsert "enableDvr" (Json.bool ss.enable_dvr)
            (alistInsert "recordFromStart" (Json.bool ss.record_from_start)
              (alistInsert "enableAutoStop" (Json.bool ss.enable_auto_stop)
                (alistInsert "enableAutoStart" (Json.bool ss.enable_auto_start) cd)))))))

/-- Update step of apply_settings_to_broadcast once the missing
contentDetails key has been provisioned: when the contentDetails value
is a dict, it is replaced by its updated version; when it is any other
value, dict.update raises, the handler catches it, and the body is
returned as it stands at that point. -/
def applyToProvisionedBody (ss : StreamSettings) (body1 : List (String × Json)) :
    List (String × Json) :=
  match alistLookup "contentDetails" body1 with
  | some (Json.obj cd) =>
    alistInsert "contentDetails" (Json.obj (updateContentDetails ss cd)) body1
  | _ => body1

/-- Embedding of AdvancedSettings.apply_settings_to_broadcast
(advanced_settings.py lines 610-652).  The broadcast body is a dict; a
missing contentDetails key is first set to the empty dict, then the
contentDetails dict is updated in place. -/
def applySettingsToBroadcast (ss : StreamSettings) (body : List (String × Json)) :
    List (String × Json) :=
  applyToProvisionedBody ss
    (if (alistLookup "contentDetails" body).isSome then body
     else alistInsert "contentDetails" (Json.obj []) body)

/-- Projection used to state the latency claims: the latencyPreference
entry of the contentDetails dict of a broadcast body. -/
def latencyPrefOf (body : List (String × Json)) : Option Json :=
  match alistLookup "contentDetails" body with
  | some (Json.obj cd) => alistLookup "latencyPreference" cd
  | _ => none

/-- Embedding of AdvancedSettings.get_ffmpeg_advanced_params
(advanced_settings.py lines 654-690): the flat token list accumulated
by the successive extend calls. -/
def getFfmpegAdvancedParams (ts : TechnicalSettings) : List String :=
  let p1 : List String := if ts.video_codec = "h265" then ["-c:v", "libx265"] else []
  let p2 := p1 ++ ["-g", toString (ts.keyframe_interval * 30)]
  let p3 := p2 ++ (if ts.b_frames > 0 then ["-bf", toString ts.b_frames] else [])
  let p4 := p3 ++ (if ts.audio_codec = "mp3" then ["-c:a", "libmp3lame"] else [])
  let p5 := p4 ++ ["-ar", toString ts.audio_sample_rate, "-ac", toString ts.audio_channels]
  p5 ++ (if ts.enable_hardware_encoding then ["-hwaccel", "auto"] else [])

/-- The literal default settings document returned by
AdvancedSettings.get_default_settings (advanced_settings.py lines
52-100). -/
def getDefaultSettings : Json :=
  Json.obj
    [("stream_settings", Json.obj
        [("enable_dvr", Json.bool true),
         ("enable_content_encryption", Json.bool false),
         ("enable_embed", Json.bool true),
         ("enable_auto_start", Json.bool true),
         ("enable_auto_stop", Json.bool true),
         ("record_from_start", Json.bool true),
         ("monitor_stream", Json.bool false),
         ("broadcast_delay_ms", Json.int 0),
         ("custom_rtmp_url", Json.str ""),
         ("stream_latency", Json.str "normal")]),
     ("thumbnail_settings", Json.obj
        [("auto_upload", Json.bool true),
         ("resize_thumbnail", Json.bool true),
         ("thumbnail_quality", Json.int 85),
         ("backup_thumbnails", Json.bool true)]),
     ("monetization", Json.obj
        [("enable_monetization", Json.bool false),
         ("enable_super_chat", Json.bool false),
         ("enable_channel_memberships", Json.bool false),
         ("enable_merchandise", Json.bool false)]),
     ("technical_settings", Json.obj
        [("video_codec", Json.str "h264"),
         ("audio_codec", Json.str "aac"),
         ("keyframe_interval", Json.int 2),
         ("b_frames", Json.int 0),
         ("audio_sample_rate", Json.int 44100),
         ("audio_channels", Json.int 2),
         ("enable_hardware_encoding", Json.bool false)]),
     ("notification_settings", Json.obj
        [("notify_stream_start", Json.bool true),
         ("notify_stream_end", Json.bool true),
         ("notify_errors", Json.bool true),
         ("webhook_url", Json.str "")]),
     ("security_settings", Json.obj
        [("enable_stream_key_rotation", Json.bool false),
         ("allowed_encoders", Json.arr []),
         ("ip_whitelist", Json.arr []),
         ("enable_https_only", Json.bool true)])]

/-- Embedding of AdvancedSettings.load_settings (advanced_settings.py
lines 29-38): if the file exists and parses, its document is returned;
a read or parse exception is caught and the default document is
returned; a missing file also yields the default document. -/
def loadSettings (file : Option (Except ReadError Json)) : Json :=
  match file with
  | some (.ok doc) => doc
  | some (.error _) => getDefaultSettings
  | none => getDefaultSettings

/-- Embedding of AdvancedSettings.save_settings (advanced_settings.py
lines 40-50): the whole document is written to the settings file (the
json codec is treated as a faithful round trip); the copy placed in the
session store does not affect the settings file. -/
def saveSettings (doc : Json) (oldFile : Option (Except ReadError Json)) :
    Option (Except ReadError Json) :=
  match oldFile with
  | _ => some (.ok doc)

/-! ## Session store (livesesion.py)

A session record is one value of the session table dict; the keys the
source reads and writes are embedded as optional fields (a fresh record
is the empty dict, i.e. all fields absent). -/

/-- One session record of live_session.json. -/
structure SessionRecord where
  mk ::
  last_updated : Option Int
  sid_field : Option String
  current_broadcast : Option Json
  stream_configs : Option (List Json)
  streaming_status : Option Json
  form_data : Option (List (String × Json))

/-- The empty dict a fresh session record starts as. -/
def emptyRecord : SessionRecord :=
  SessionRecord.mk none none none none none none

/-- Embedding of LiveSession._load_session (livesesion.py lines 28-44):
a missing file yields the empty table, a raised read or parse exception
is caught and also yields the empty table, and otherwise every record
with current_time - last_updated (defaulting to 0) below 86400 seconds
is kept, the rest dropped. -/
def loadSession (file : Option (Except ReadError (List (String × SessionRecord))))
    (currentTime : Int) : List (String × SessionRecord) :=
  match file with
  | some (.ok data) =>
    data.filter (fun kv => decide (currentTime - (kv.2.last_updated.getD 0) < 86400))
  | some (.error _) => []
  | none => []

/-- Record stamping done by LiveSession._save_session (livesesion.py
lines 46-65): the current session's record (created as the empty dict
when absent) gets last_updated set to the current time and session_id
set to the session identifier; the whole table is then written out. -/
def saveSessionTable (sessionId : String) (now : Int)
    (data : List (String × SessionRecord)) : List (String × SessionRecord) :=
  let r0 := (alistLookup sessionId data).getD emptyRecord
  let r1 := SessionRecord.mk (some now) (some sessionId) r0.current_broadcast
    r0.stream_configs r0.streaming_status r0.form_data
  alistInsert sessionId r1 data

/-- In-memory state of a LiveSession instance: its session identifier
and its session-data table. -/
structure SessionStore where
  sessionId : String
  sessionData : List (String × SessionRecord)

/-- The export blob built by LiveSession.export_session (livesesion.py
lines 213-226); json.dumps/json.loads of the blob is treated as a
faithful round trip. -/
structure ExportBlob where
  session_id : String
  exported_at : String
  data : SessionRecord

/-- Embedding of LiveSession.export_session (livesesion.py lines
213-226): when the store holds a record for its own session identifier,
the blob with that identifier, the export timestamp and the record is
serialized; otherwise None is returned. -/
def exportSession (s : SessionStore) (exportedAt : String) : Option ExportBlob :=
  match alistLookup s.sessionId s.sessionData with
  | some rec => some (ExportBlob.mk s.sessionId exportedAt rec)
  | none => none

/-- Embedding of LiveSession.import_session (livesesion.py lines
228-241): the parsed blob's record is stored under the blob's session
identifier, _save_session stamps the store's own record, and the
imported session identifier is returned. -/
def importSession (s : SessionStore) (blob : ExportBlob) (now : Int) :
    SessionStore × Option String :=
  let data1 := alistInsert blob.session_id blob.data s.sessionData
  let data2 := saveSessionTable s.sessionId now data1
  (SessionStore.mk s.sessionId data2, some blob.session_id)

/-- The broadcast bodies built by the source (create_live_stream,
app.py lines 432-448) carry contentDetails as a dict when present at
all; this predicate states that shape. -/
def contentDetailsOk (body : List (String × Json)) : Prop :=
  match alistLookup "contentDetails" body with
  | none => True
  | some (Json.obj _) => True
  | _ => False

theorem alistLookup_insert_self {α : Type} (k : String) (v : α) (l : List (String × α)) :
    alistLookup k (alistInsert k v l) = some v := by
  induction l with
  | nil => simp [alistInsert, alistLookup]
  | cons kv rest ih =>
    by_cases h : kv.1 = k
    · simp [alistInsert, if_pos h, alistLookup]
    · simp only [alistInsert, if_neg h, alistLookup, if_neg h, ih]

theorem alistLookup_insert_ne {α : Type} (k k' : String) (v : α) (l : List (String × α))
    (h : k ≠ k') : alistLookup k (alistInsert k' v l) = alistLookup k l := by
  induction l with
  | nil =>
    simp only [alistInsert, alistLookup, if_neg (Ne.symm h)]
  | cons kv rest ih =>
    by_cases hk : kv.1 = k'
    · have hkk : ¬ kv.1 = k := fun he => h (he.symm.trans hk)
      simp only [alistInsert, if_pos hk, alistLookup, if_neg (Ne.symm h), if_neg hkk]
    · by_cases hk2 : kv.1 = k
      · simp only [alistInsert, if_neg hk, alistLookup, if_pos hk2]
      · simp only [alistInsert, if_neg hk, alistLookup, if_neg hk2, ih]

theorem latencyPrefOf_applyToProvisionedBody (ss : StreamSettings)
    (body1 cd : List (String × Json))
    (h : alistLookup "contentDetails" body1 = some (Json.obj cd)) :
    latencyPrefOf (applyToProvisionedBody ss body1) =
      some (Json.str (latencyLiteral ss.stream_latency)) := by
  unfold applyToProvisionedBody
  rw [h]
  unfold latencyPrefOf
  rw [alistLookup_insert_self]
  exact alistLookup_insert_self _ _ _

/-! ## Claim theorems -/

/-- C1 counterexample: the claim says a failed read of the quota log
makes can_upload_thumbnail return False for the upload-allowed flag,
but on a raised read exception the except-branch of app.py line 150
returns True with both counts 0. -/
theorem canUploadThumbnail_error_not_false :
    (canUploadThumbnail (some (.error .ioError)) "2025-10-12" "2025-10-12-10").1 = true ∧
    (canUploadThumbnail (some (.error .ioError)) "2025-10-12" "2025-10-12-10").1 ≠ false := by
  decide

/-- C1 (amended): for every failure (I/O or parse exception) while
reading the thumbnail quota log, can_upload_thumbnail catches the
exception, does not propagate it, and returns True with both counts 0
(the failure is converted into permission to upload, not denial). -/
theorem canUploadThumbnail_error_fail_open :
    ∀ (e : ReadError) (today currentHour : String),
      canUploadThumbnail (some (.error e)) today currentHour = (true, 0, 0) := by
  intro e today currentHour
  rfl

/-- C2: on every successfully read quota-log state, can_upload_thumbnail
returns False when today's count is at least 50 (regardless of the
hourly count), returns False when the current hour's count is at least
10, returns True exactly when the daily count is below 50 and the
hourly count is below 10, and reports both raw counts. -/
theorem canUploadThumbnail_quota_gate :
    ∀ (log : QuotaLog) (today currentHour : String),
      (50 ≤ dailyCount log today →
        (canUploadThumbnail (some (.ok log)) today currentHour).1 = false) ∧
      (10 ≤ hourlyCount log currentHour →
        (canUploadThumbnail (some (.ok log)) today currentHour).1 = false) ∧
      ((canUploadThumbnail (some (.ok log)) today currentHour).1 = true ↔
        (dailyCount log today < 50 ∧ hourlyCount log currentHour < 10)) ∧
      (canUploadThumbnail (some (.ok log)) today currentHour).2.1 = dailyCount log today ∧
      (canUploadThumbnail (some (.ok log)) today currentHour).2.2 = hourlyCount log currentHour := by
  intro log today currentHour
  refine ⟨?_, ?_, ?_, rfl, rfl⟩
  · intro hd
    show (decide (dailyCount log today < 50) && decide (hourlyCount log currentHour < 10)) = false
    rw [decide_eq_false (not_lt.mpr hd), Bool.false_and]
  · intro hh
    show (decide (dailyCount log today < 50) && decide (hourlyCount log currentHour < 10)) = false
    rw [decide_eq_false (not_lt.mpr hh), Bool.and_false]
  · show (decide (dailyCount log today < 50) && decide (hourlyCount log currentHour < 10)) = true ↔ _
    simp

/-- C2 witness: the quota gate evaluated on a concrete log that is at
the daily cap. -/
theorem canUploadThumbnail_quota_gate_witness :
    (50 ≤ dailyCount ⟨[("2025-10-12", 50)], [("2025-10-12-10", 3)]⟩ "2025-10-12" →
      (canUploadThumbnail (some (.ok ⟨[("2025-10-12", 50)], [("2025-10-12-10", 3)]⟩))
        "2025-10-12" "2025-10-12-10").1 = false) ∧
    (10 ≤ hourlyCount ⟨[("2025-10-12", 50)], [("2025-10-12-10", 3)]⟩ "2025-10-12-10" →
      (canUploadThumbnail (some (.ok ⟨[("2025-10-12", 50)], [("2025-10-12-10", 3)]⟩))
        "2025-10-12" "2025-10-12-10").1 = false) ∧
    ((canUploadThumbnail (some (.ok ⟨[("2025-10-12", 50)], [("2025-10-12-10", 3)]⟩))
        "2025-10-12" "2025-10-12-10").1 = true ↔
      (dailyCount ⟨[("2025-10-12", 50)], [("2025-10-12-10", 3)]⟩ "2025-10-12" < 50 ∧
       hourlyCount ⟨[("2025-10-12", 50)], [("2025-10-12-10", 3)]⟩ "2025-10-12-10" < 10)) ∧
    (canUploadThumbnail (some (.ok ⟨[("2025-10-12", 50)], [("2025-10-12-10", 3)]⟩))
      "2025-10-12" "2025-10-12-10").2.1 =
      dailyCount ⟨[("2025-10-12", 50)], [("2025-10-12-10", 3)]⟩ "2025-10-12" ∧
    (canUploadThumbnail (some (.ok ⟨[("2025-10-12", 50)], [("2025-10-12-10", 3)]⟩))
      "2025-10-12" "2025-10-12-10").2.2 =
      hourlyCount ⟨[("2025-10-12", 50)], [("2025-10-12-10", 3)]⟩ "2025-10-12-10" :=
  canUploadThumbnail_quota_gate ⟨[("2025-10-12", 50)], [("2025-10-12-10", 3)]⟩
    "2025-10-12" "2025-10-12-10"

/-- C3: for every settings document and every broadcast body whose
contentDetails entry is absent or itself a dict (the shape every body
built by the source has), apply_settings_to_broadcast sets the
contentDetails latencyPreference field to the literal ultraLow when
stream_latency is ultra_low, to low when it is low, and to normal in
every other case. -/
theorem applySettingsToBroadcast_latency (ss : StreamSettings)
    (body : List (String × Json)) (h : contentDetailsOk body) :
    latencyPrefOf (applySettingsToBroadcast ss body) =
      some (Json.str
        (if ss.stream_latency = "ultra_low" then "ultraLow"
         else if ss.stream_latency = "low" then "low"
         else "normal")) := by
  have hlat : latencyLiteral ss.stream_latency =
      (if ss.stream_latency = "ultra_low" then "ultraLow"
       else if ss.stream_latency = "low" then "low"
       else "normal") := by
    unfold latencyLiteral
    by_cases h1 : ss.stream_latency = "ultra_low"
    · simp [h1]
    · by_cases h2 : ss.stream_latency = "low"
      · simp [h2]
      · simp [h1, h2]
  rw [← hlat]
  unfold applySettingsToBroadcast
  unfold contentDetailsOk at h
  cases hcd : alistLookup "contentDetails" body with
  | none =>
    simp only [Option.isSome_none, Bool.false_eq_true, if_false]
    exact latencyPrefOf_applyToProvisionedBody ss _ []
      (alistLookup_insert_self _ _ _)
  | some j =>
    rw [hcd] at h
    cases j with
    | obj cd =>
      simp only [Option.isSome_some, if_pos rfl]
      exact latencyPrefOf_applyToProvisionedBody ss body cd hcd
    | str s => exact False.elim h
    | int n => exact False.elim h
    | bool b => exact False.elim h
    | null => exact False.elim h
    | arr xs => exact False.elim h

/-- C3 witness: the latency mapping evaluated at a concrete settings
document with ultra_low latency and the empty broadcast body. -/
theorem applySettingsToBroadcast_latency_witness :
    latencyPrefOf (applySettingsToBroadcast
      (StreamSettings.mk true false true true true true false 0 "" "ultra_low") []) =
      some (Json.str
        (if ("ultra_low" : String) = "ultra_low" then "ultraLow"
         else if ("ultra_low" : String) = "low" then "low"
         else "normal")) :=
  applySettingsToBroadcast_latency
    (StreamSettings.mk true false true true true true false 0 "" "ultra_low") [] trivial

/-- C4: on every successfully read session table, a record whose
last_updated timestamp (defaulting to 0 when absent) is more than 86400
seconds before the current time is absent from the table returned by
_load_session, and every record updated strictly within the last 86400
seconds is present. -/
theorem loadSession_expiry (data : List (String × SessionRecord)) (currentTime : Int)
    (sid : String) (rec : SessionRecord) (hmem : (sid, rec) ∈ data) :
    (currentTime - rec.last_updated.getD 0 > 86400 →
      (sid, rec) ∉ loadSession (some (.ok data)) currentTime) ∧
    (currentTime - rec.last_updated.getD 0 < 86400 →
      (sid, rec) ∈ loadSession (some (.ok data)) currentTime) := by
  constructor
  · intro hold hmem2
    have hp := List.of_mem_filter hmem2
    have hlt : currentTime - rec.last_updated.getD 0 < 86400 := of_decide_eq_true hp
    omega
  · intro hnew
    exact List.mem_filter.mpr ⟨hmem, decide_eq_true hnew⟩

/-- C4 witness: an idle record (no timestamp, so it defaults to 0) is
dropped by a load 100000 seconds later. -/
theorem loadSession_expiry_witness :
    (("s1", emptyRecord) ∈ [("s1", emptyRecord)]) ∧
    ((100000 - emptyRecord.last_updated.getD 0 > 86400 →
      ("s1", emptyRecord) ∉ loadSession (some (.ok [("s1", emptyRecord)])) 100000) ∧
     (100000 - emptyRecord.last_updated.getD 0 < 86400 →
      ("s1", emptyRecord) ∈ loadSession (some (.ok [("s1", emptyRecord)])) 100000)) :=
  ⟨List.mem_cons_self _ _,
   loadSession_expiry [("s1", emptyRecord)] 100000 "s1" emptyRecord (List.mem_cons_self _ _)⟩

/-- C5: whenever log_thumbnail_upload writes the quota log back (it
does so exactly when the read did not raise), every daily key of the
saved log is at least the 7-day cutoff date string and every hourly key
is at least the 24-hour cutoff hour string; since strftime on
YYYY-MM-DD and YYYY-MM-DD-HH keys is monotone, no saved daily entry is
older than 7 days and no saved hourly entry older than 24 hours. -/
theorem logThumbnailUpload_prunes (file : Option (Except ReadError QuotaLog))
    (today currentHour cutoffDate cutoffHour : String) (newLog : QuotaLog)
    (hsave : logThumbnailUpload file today currentHour cutoffDate cutoffHour =
      some (.ok newLog)) :
    (∀ kv ∈ newLog.daily, pyStrLe cutoffDate kv.1 = true) ∧
    (∀ kv ∈ newLog.hourly, pyStrLe cutoffHour kv.1 = true) := by
  cases file with
  | none =>
    simp only [logThumbnailUpload, Option.some.injEq, Except.ok.injEq] at hsave
    subst hsave
    constructor
    · intro kv hkv
      have hkv2 : kv ∈ List.filter (fun kv => pyStrLe cutoffDate kv.1)
          (alistInsert today ((alistLookup today ([] : List (String × Int))).getD 0 + 1) []) := hkv
      have hp := List.of_mem_filter hkv2
      exact hp
    · intro kv hkv
      have hkv2 : kv ∈ List.filter (fun kv => pyStrLe cutoffHour kv.1)
          (alistInsert currentHour ((alistLookup currentHour ([] : List (String × Int))).getD 0 + 1) []) := hkv
      have hp := List.of_mem_filter hkv2
      exact hp
  | some r =>
    cases r with
    | error e => simp [logThumbnailUpload] at hsave
    | ok log =>
      simp only [logThumbnailUpload, Option.some.injEq, Except.ok.injEq] at hsave
      subst hsave
      constructor
      · intro kv hkv
        have hkv2 : kv ∈ List.filter (fun kv => pyStrLe cutoffDate kv.1)
            (alistInsert today ((alistLookup today log.daily).getD 0 + 1) log.daily) := hkv
        have hp := List.of_mem_filter hkv2
        exact hp
      · intro kv hkv
        have hkv2 : kv ∈ List.filter (fun kv => pyStrLe cutoffHour kv.1)
            (alistInsert currentHour ((alistLookup currentHour log.hourly).getD 0 + 1) log.hourly) := hkv
        have hp := List.of_mem_filter hkv2
        exact hp

/-- C5 witness: a save on a log holding a stale daily entry from
2025-10-01 with cutoffs 2025-10-05 / 2025-10-11-10 keeps only keys at
or past the cutoffs. -/
theorem logThumbnailUpload_prunes_witness :
    (logThumbnailUpload (some (.ok ⟨[("2025-10-01", 1)], []⟩)) "2025-10-12" "2025-10-12-10"
        "2025-10-05" "2025-10-11-10" =
      some (.ok ⟨[("2025-10-12", 1)], [("2025-10-12-10", 1)]⟩)) ∧
    ((∀ kv ∈ (QuotaLog.mk [("2025-10-12", 1)] [("2025-10-12-10", 1)]).daily,
        pyStrLe "2025-10-05" kv.1 = true) ∧
     (∀ kv ∈ (QuotaLog.mk [("2025-10-12", 1)] [("2025-10-12-10", 1)]).hourly,
        pyStrLe "2025-10-11-10" kv.1 = true)) :=
  ⟨rfl, logThumbnailUpload_prunes (some (.ok ⟨[("2025-10-01", 1)], []⟩))
    "2025-10-12" "2025-10-12-10" "2025-10-05" "2025-10-11-10"
    (QuotaLog.mk [("2025-10-12", 1)] [("2025-10-12-10", 1)]) rfl⟩

/-- C6: saving a settings document and then loading returns the same
document, for every document and every prior file state. -/
theorem saveSettings_loadSettings_roundtrip (doc : Json)
    (oldFile : Option (Except ReadError Json)) :
    loadSettings (saveSettings doc oldFile) = doc := rfl

/-- C8: when the settings file does not exist, and also when reading or
parsing it raises, load_settings returns exactly the default settings
document of get_default_settings. -/
theorem loadSettings_missing_or_invalid_default :
    loadSettings none = getDefaultSettings ∧
    ∀ e : ReadError, loadSettings (some (.error e)) = getDefaultSettings :=
  ⟨rfl, fun _ => rfl⟩

/-- C9: get_ffmpeg_advanced_params returns exactly the flat token list
of the claim: the h265 codec pair exactly when video_codec is h265,
always the keyframe flag with the interval times the assumed 30 fps,
the B-frame flag exactly when b_frames is positive, the mp3 codec pair
exactly when audio_codec is mp3, always the sample-rate and channel
flags, and the hardware-acceleration pair exactly when hardware
encoding is enabled, with no other tokens. -/
theorem getFfmpegAdvancedParams_tokens (ts : TechnicalSettings) :
    getFfmpegAdvancedParams ts =
      (if ts.video_codec = "h265" then ["-c:v", "libx265"] else []) ++
      ["-g", toString (ts.keyframe_interval * 30)] ++
      (if ts.b_frames > 0 then ["-bf", toString ts.b_frames] else []) ++
      (if ts.audio_codec = "mp3" then ["-c:a", "libmp3lame"] else []) ++
      ["-ar", toString ts.audio_sample_rate, "-ac", toString ts.audio_channels] ++
      (if ts.enable_hardware_encoding then ["-hwaccel", "auto"] else []) := rfl

/-- C7: exporting the session record of a store and importing the blob
into a fresh store with a different session identifier places a record
equal to the exported one under the original identifier, and
import_session returns that original identifier. -/
theorem exportSession_importSession_roundtrip (s1 s2 : SessionStore)
    (rec : SessionRecord) (exportedAt : String) (now : Int)
    (hrec : alistLookup s1.sessionId s1.sessionData = some rec)
    (hne : s2.sessionId ≠ s1.sessionId) :
    ∃ blob, exportSession s1 exportedAt = some blob ∧
      blob.session_id = s1.sessionId ∧ blob.data = rec ∧
      alistLookup s1.sessionId (importSession s2 blob now).1.sessionData = some rec ∧
      (importSession s2 blob now).2 = some s1.sessionId := by
  refine ⟨ExportBlob.mk s1.sessionId exportedAt rec, ?_, rfl, rfl, ?_, rfl⟩
  · unfold exportSession
    rw [hrec]
  · show alistLookup s1.sessionId
      (saveSessionTable s2.sessionId now
        (alistInsert s1.sessionId rec s2.sessionData)) = some rec
    unfold saveSessionTable
    rw [alistLookup_insert_ne _ _ _ _ (Ne.symm hne)]
    exact alistLookup_insert_self _ _ _

/-- C7 witness: a concrete record exported from the store of session
orig and imported into the fresh empty store of session fresh. -/
theorem exportSession_importSession_roundtrip_witness :
    (alistLookup (SessionStore.mk "orig" [("orig", emptyRecord)]).sessionId
        (SessionStore.mk "orig" [("orig", emptyRecord)]).sessionData = some emptyRecord) ∧
    (SessionStore.mk "fresh" []).sessionId ≠ (SessionStore.mk "orig" [("orig", emptyRecord)]).sessionId ∧
    ∃ blob, exportSession (SessionStore.mk "orig" [("orig", emptyRecord)]) "t0" = some blob ∧
      blob.session_id = (SessionStore.mk "orig" [("orig", emptyRecord)]).sessionId ∧
      blob.data = emptyRecord ∧
      alistLookup (SessionStore.mk "orig" [("orig", emptyRecord)]).sessionId
        (importSession (SessionStore.mk "fresh" []) blob 5).1.sessionData = some emptyRecord ∧
      (importSession (SessionStore.mk "fresh" []) blob 5).2 =
        some (SessionStore.mk "orig" [("orig", emptyRecord)]).sessionId :=
  ⟨rfl, by decide,
   exportSession_importSession_roundtrip
     (SessionStore.mk "orig" [("orig", emptyRecord)])
     (SessionStore.mk "fresh" []) emptyRecord "t0" 5 rfl (by decide)⟩

theorem applyToProvisionedBody_frame (ss : StreamSettings)
    (body1 : List (String × Json)) (k : String) (h : k ≠ "contentDetails") :
    alistLookup k (applyToProvisionedBody ss body1) = alistLookup k body1 := by
  unfold applyToProvisionedBody
  cases hcd : alistLookup "contentDetails" body1 with
  | none => rfl
  | some j =>
    cases j with
    | obj cd => exact alistLookup_insert_ne _ _ _ _ h
    | str s => rfl
    | int n => rfl
    | bool b => rfl
    | null => rfl
    | arr xs => rfl

/-- C10: apply_settings_to_broadcast changes only the contentDetails
entry of the broadcast request: every other key, in particular snippet
and status, is mapped to the same value as in the input. -/
theorem applySettingsToBroadcast_frame (ss : StreamSettings)
    (body : List (String × Json)) (k : String) (h : k ≠ "contentDetails") :
    alistLookup k (applySettingsToBroadcast ss body) = alistLookup k body := by
  unfold applySettingsToBroadcast
  rw [applyToProvisionedBody_frame ss _ k h]
  by_cases hcd : (alistLookup "contentDetails" body).isSome = true
  · rw [if_pos hcd]
  · rw [if_neg hcd]
    exact alistLookup_insert_ne _ _ _ _ h

/-- C10 witness: the snippet entry of a concrete request is untouched
by apply_settings_to_broadcast. -/
theorem applySettingsToBroadcast_frame_witness :
    ("snippet" : String) ≠ "contentDetails" ∧
    alistLookup "snippet"
      (applySettingsToBroadcast
        (StreamSettings.mk true false true true true true false 0 "" "normal")
        [("snippet", Json.str "title"), ("status", Json.str "public")]) =
    alistLookup "snippet" [("snippet", Json.str "title"), ("status", Json.str "public")] :=
  ⟨by decide,
   applySettingsToBroadcast_frame
     (StreamSettings.mk true false true true true true false 0 "" "normal")
     [("snippet", Json.str "title"), ("status", Json.str "public")] "snippet" (by decide)⟩
